import Mathlib

/-!
Verification development for the video-processing repository.

We shallowly embed the Go sources (the Redis-stream consumer, the per-variant
processing pipeline, the ingest service and handler, the SQL upsert, and the
pgx pool construction) as executable Lean definitions and prove the spec's
claims about them.  Effectful steps (subprocess invocations, MinIO calls,
filesystem operations, database calls) are modelled by boolean/Option oracles
packaged in environment records; the control flow, data, and error values are
translated from the source.
-/

namespace VideoProc

/-! ## Go string helpers -/

/-- Model of Go `strings.HasSuffix` on character lists. -/
def goHasSuffix (s suf : String) : Bool := suf.data.isSuffixOf s.data

/-- Model of Go `strings.TrimSuffix s suf`: drop `suf` when it is a suffix. -/
def trimGoSuffix (s suf : String) : String :=
  if goHasSuffix s suf then String.mk (s.data.take (s.data.length - suf.data.length)) else s

/-- Digit-run accumulator for `goParseInt32` (base 10). -/
def parseDigitsGo : List Char → Nat → Option Nat
  | [], acc => some acc
  | c :: rest, acc =>
    if c.isDigit then parseDigitsGo rest (acc * 10 + (c.toNat - 48)) else none

/-- Parse a non-empty run of base-10 digits; `none` on empty or non-digit. -/
def parseDigits : List Char → Option Nat
  | [] => none
  | cs => parseDigitsGo cs 0

def int32Max : Int := 2147483647

def int32Min : Int := -2147483648

/-- Model of Go `strconv.ParseInt(s, 10, 32)`: optional sign, digit run,
clamped to the int32 range on range error.  Returns `(value, ok)`; a syntax
error yields `(0, false)`, a range error the clamped bound with `false`. -/
def goParseInt32 (s : String) : Int × Bool :=
  let signSplit : Bool × List Char :=
    match s.data with
    | '-' :: rest => (true, rest)
    | '+' :: rest => (false, rest)
    | cs => (false, cs)
  match parseDigits signSplit.2 with
  | none => (0, false)
  | some n =>
    let v : Int := if signSplit.1 then -(n : Int) else (n : Int)
    if v < int32Min then (int32Min, false)
    else if v > int32Max then (int32Max, false)
    else (v, true)

/-- `filepath.Join` of two slash-normalized, non-empty, clean components, as
used throughout the consumer (all joined paths in the source are of this
shape, so Join reduces to concatenation with a separator). -/
def joinPath (a b : String) : String := a ++ "/" ++ b

/-- Helper for `extOf`: scan the reversed character list for the last dot. -/
def extFrom : List Char → List Char → Option (List Char)
  | [], _ => none
  | c :: rest, acc => if c = '.' then some (c :: acc) else extFrom rest (c :: acc)

/-- Model of Go `filepath.Ext` on a base name: suffix beginning at the final
dot, or `""` when the name has no dot. -/
def extOf (s : String) : String :=
  match extFrom s.data.reverse [] with
  | none => ""
  | some cs => String.mk cs

/-- `mimeTypeByExt` from the source: content type from the file extension. -/
def mimeTypeByExt (ext : String) : String :=
  if ext = ".m3u8" then "application/vnd.apple.mpegurl"
  else if ext = ".ts" then "video/mp2t"
  else if ext = ".mp4" then "video/mp4"
  else if ext = ".jpg" ∨ ext = ".jpeg" then "image/jpeg"
  else "application/octet-stream"

/-! ## Data model (package video) -/

/-- `Variant` from the source: a target output descriptor. -/
structure Variant where
  name : String
  width : Nat
  height : Nat
  bitrate : String
  deriving Repr, DecidableEq

/-- The build-time variant table (`var variants = []Variant{...}`). -/
def variants : List Variant :=
  [ { name := "1080p", width := 1920, height := 1080, bitrate := "4000k" },
    { name := "720p", width := 1280, height := 720, bitrate := "2000k" },
    { name := "480p", width := 854, height := 480, bitrate := "1000k" },
    { name := "360p", width := 640, height := 360, bitrate := "500k" },
    { name := "240p", width := 426, height := 240, bitrate := "250k" },
    { name := "144p", width := 256, height := 144, bitrate := "100k" } ]

/-- `pgtype.Text`: a nullable SQL text value (`valid = false` means NULL). -/
structure PgText where
  string : String
  valid : Bool
  deriving Repr, DecidableEq

/-- `pgtype.Int4`: a nullable SQL int value (`valid = false` means NULL). -/
structure PgInt4 where
  int32 : Int
  valid : Bool
  deriving Repr, DecidableEq

/-- `db.SaveProcessedVideoMetadataParams`: the variant-metadata upsert
parameters (diagnostic-only fields of the Go struct are kept verbatim). -/
structure MetadataParams where
  videoID : String
  variantName : String
  bucket : String
  key : String
  contentType : String
  hlsPlaylistKey : PgText
  thumbnailKey : PgText
  width : PgInt4
  height : PgInt4
  bitrateKbps : PgInt4
  deriving Repr, DecidableEq

/-- The Go zero value of `SaveProcessedVideoMetadataParams` (a failed
variant's `Metadata` field is never assigned and keeps this value). -/
def zeroMetadata : MetadataParams :=
  { videoID := "", variantName := "", bucket := "", key := "", contentType := "",
    hlsPlaylistKey := { string := "", valid := false },
    thumbnailKey := { string := "", valid := false },
    width := { int32 := 0, valid := false },
    height := { int32 := 0, valid := false },
    bitrateKbps := { int32 := 0, valid := false } }

/-- `UploadTask`: a file to be uploaded to MinIO. -/
structure UploadTask where
  sourcePath : String
  objectKey : String
  contentType : String
  bucket : String
  deriving Repr, DecidableEq

/-- `ProcessingTask`: the input of one variant pipeline (`DestPrefix` in the
source is `destPref` here). -/
structure ProcessingTask where
  variant : Variant
  workDir : String
  sourcePath : String
  destPref : String
  bucket : String
  videoID : String
  deriving Repr, DecidableEq

/-- `ProcessingResult`: what one variant pipeline sends on the result
channel. -/
structure ProcessingResult where
  variantName : String
  videoID : String
  workDir : String
  success : Bool
  errorMsg : Option String
  files : List UploadTask
  metadata : MetadataParams
  deriving Repr, DecidableEq

/-- Oracles for the effectful steps of `processVariant` on one variant:
`os.MkdirAll varDir`, `transcodeToMP4`, `os.MkdirAll hlsDir`, `generateHLS`,
`generateThumbnail`, the `os.Stat` probe of the thumbnail file, the
`filepath.Glob` result over the variant directory (base names; `none` models
a glob error), and `uuid.Parse` of the video id. -/
structure VariantEnv where
  mkdirOk : Bool
  transcodeOk : Bool
  mkdirHlsOk : Bool
  hlsOk : Bool
  thumbOk : Bool
  statThumbOk : Bool
  hlsGlob : Option (List String)
  videoIdOk : Bool
  deriving Repr, DecidableEq

/-- `processVariant` from the source: one variant's pipeline, returning the
`ProcessingResult` it sends on the result channel.  Mirrors the source's
early-return structure; the thumbnail failure is only logged. -/
def processVariant (env : VariantEnv) (task : ProcessingTask) : ProcessingResult :=
  let base : ProcessingResult :=
    { variantName := task.variant.name, videoID := task.videoID,
      workDir := task.workDir, success := true, errorMsg := none,
      files := [], metadata := zeroMetadata }
  let varDir := joinPath task.workDir task.variant.name
  if ¬ env.mkdirOk then
    { base with success := false, errorMsg := some "failed to create variant directory" }
  else
    let mp4Path := joinPath varDir (task.variant.name ++ ".mp4")
    if ¬ env.transcodeOk then
      { base with success := false, errorMsg := some "transcode failed" }
    else if ¬ env.mkdirHlsOk then
      { base with success := false, errorMsg := some "failed to create variant directory for HLS" }
    else if ¬ env.hlsOk then
      { base with success := false, errorMsg := some "HLS generation failed" }
    else
      -- thumbnail generation failure is non-fatal: only a warning is logged
      let destDir := joinPath task.destPref task.variant.name
      let thumbPath := joinPath varDir (task.variant.name ++ "-thumb.jpg")
      let files1 : List UploadTask :=
        [ { sourcePath := mp4Path,
            objectKey := joinPath destDir (task.variant.name ++ ".mp4"),
            contentType := "video/mp4", bucket := task.bucket } ]
      let files2 : List UploadTask :=
        if env.statThumbOk then
          files1 ++ [ { sourcePath := thumbPath,
                        objectKey := joinPath destDir (task.variant.name ++ "-thumb.jpg"),
                        contentType := "image/jpeg", bucket := task.bucket } ]
        else files1
      let files3 : List UploadTask :=
        match env.hlsGlob with
        | none => files2
        | some names =>
          files2 ++ (names.filter
              (fun n => ¬ (goHasSuffix n ".mp4" ∨ goHasSuffix n "-thumb.jpg"))).map
            (fun n => { sourcePath := joinPath varDir n,
                        objectKey := joinPath destDir n,
                        contentType := mimeTypeByExt (extOf n),
                        bucket := task.bucket })
      let bitrate := (goParseInt32 (trimGoSuffix task.variant.bitrate "k")).1
      if ¬ env.videoIdOk then
        { base with success := false, errorMsg := some "invalid video ID", files := files3 }
      else
        { base with
          files := files3
          metadata :=
            { videoID := task.videoID, variantName := task.variant.name,
              bucket := task.bucket,
              key := joinPath destDir (task.variant.name ++ ".mp4"),
              contentType := "video/mp4",
              hlsPlaylistKey := { string := joinPath destDir "index.m3u8", valid := true },
              thumbnailKey :=
                { string := joinPath destDir (task.variant.name ++ "-thumb.jpg"), valid := true },
              width := { int32 := (task.variant.width : Int), valid := true },
              height := { int32 := (task.variant.height : Int), valid := true },
              bitrateKbps := { int32 := bitrate, valid := true } } }

/-! ## Consumer and job level (`Consume`, `ProcessVideo`) -/

/-- A value of the Redis message field map (`map[string]interface{}`):
either a Go string or some other dynamic value. -/
inductive GoValue where
  | str (s : String)
  | other
  deriving Repr, DecidableEq

/-- A message field map, e.g. `{bucket, key, video_id}`. -/
def FieldMap : Type := List (String × GoValue)

/-- Model of the unchecked Go type assertion `v.(string)` applied to a map
lookup: a missing key yields the nil interface and the assertion on a nil or
non-string value panics; panics are modelled as `Except.error`. -/
def typeAssertString : Option GoValue → Except String String
  | some (GoValue.str s) => Except.ok s
  | _ => Except.error "panic: interface conversion"

/-- Look up a field of the message map (`values[k]`). -/
def lookupField (values : FieldMap) (k : String) : Option GoValue :=
  List.lookup k values

/-- `models.Error` (the `Params` format string and the wrapped `Err` are
diagnostic-only and elided). -/
structure GoError where
  code : Nat
  message : String
  description : String
  deriving Repr, DecidableEq

/-- Oracles for the job-level effects of `ProcessVideo`: `os.MkdirTemp`, the
MinIO source download, plus the fresh job uuid, the temp directory path, and
the per-variant environments keyed by variant name. -/
structure JobEnv where
  mkdirTempOk : Bool
  downloadOk : Bool
  jobUUID : String
  workDir : String
  variantEnv : String → VariantEnv

/-- `saveVariantMetadata` from the source: the db upsert is skipped (with an
error log) for a failed result; otherwise the row parameters are submitted.
Returns the submitted parameters, if any (a db error is only logged). -/
def saveVariantMetadata (result : ProcessingResult) : Option MetadataParams :=
  if ¬ result.success ∨ result.errorMsg.isSome then none
  else some result.metadata

/-- What the result-router goroutine does with one `ProcessingResult`:
the upload tasks it queues and the metadata save it performs. -/
structure RouterAction where
  queued : List UploadTask
  saved : Option MetadataParams
  deriving Repr, DecidableEq

/-- The result-router body from `ProcessVideo`: a successful result with
files queues the uploads and saves the metadata; a failed result is only
logged.  (The `ctx.Done` branch models an uncancelled context.) -/
def routeResult (result : ProcessingResult) : RouterAction :=
  if result.success ∧ result.files.length > 0 then
    { queued := result.files, saved := saveVariantMetadata result }
  else
    { queued := [], saved := none }

/-- The `ProcessingTask` built for one variant inside `ProcessVideo`. -/
def mkTask (env : JobEnv) (bucket sourceObj videoID : String) (v : Variant) : ProcessingTask :=
  { variant := v, workDir := env.workDir,
    sourcePath := joinPath env.workDir ("source" ++ extOf sourceObj),
    destPref := "processed/" ++ env.jobUUID,
    bucket := bucket, videoID := videoID }

/-- The outcome of one `ProcessVideo` call: the returned error, the
per-variant results (in variant order), and the router's actions on them. -/
structure JobResult where
  err : Option GoError
  results : List ProcessingResult
  actions : List RouterAction
  deriving Repr, DecidableEq

/-- The fan-out/fan-in pipeline of `ProcessVideo` after a successful
download: one variant pipeline per descriptor in `variants`, each routed by
the result router. -/
def runJobPipeline (env : JobEnv) (bucket sourceObj videoID : String) : JobResult :=
  let results := variants.map
    (fun v => processVariant (env.variantEnv v.name) (mkTask env bucket sourceObj videoID v))
  { err := none, results := results, actions := results.map routeResult }

/-- `ProcessVideo` from the source: extract `bucket`, `key`, `video_id` with
unchecked type assertions (outer `Except.error` = panic), create the working
directory, download the source, then run the variant pipeline.  Workdir and
download failures return a `models.Error`. -/
def ProcessVideo (env : JobEnv) (values : FieldMap) : Except String JobResult :=
  match typeAssertString (lookupField values "bucket") with
  | Except.error e => Except.error e
  | Except.ok bucket =>
    match typeAssertString (lookupField values "key") with
    | Except.error e => Except.error e
    | Except.ok sourceObj =>
      match typeAssertString (lookupField values "video_id") with
      | Except.error e => Except.error e
      | Except.ok videoID =>
        if ¬ env.mkdirTempOk then
          Except.ok
            { err := some { code := 500, message := "internal server error",
                            description := "failed to create working directory" },
              results := [], actions := [] }
        else if ¬ env.downloadOk then
          Except.ok
            { err := some { code := 500, message := "download failed",
                            description := "failed to download source video" },
              results := [], actions := [] }
        else
          Except.ok (runJobPipeline env bucket sourceObj videoID)

/-- The per-message body of the `Consume` read loop: assert `bucket` and
`key` as strings (unchecked), call `ProcessVideo` (its returned error is
discarded by the source), then `XAck` the message unconditionally (an ack
error is only logged).  The returned flag is whether the message was
acknowledged; `Except.error` models a panic crashing the consumer. -/
def consumeMessage (env : JobEnv) (values : FieldMap) : Except String (JobResult × Bool) :=
  match typeAssertString (lookupField values "bucket") with
  | Except.error e => Except.error e
  | Except.ok _bucket =>
    match typeAssertString (lookupField values "key") with
    | Except.error e => Except.error e
    | Except.ok _key =>
      match ProcessVideo env values with
      | Except.error e => Except.error e
      | Except.ok jr => Except.ok (jr, true)

/-! ## Metadata store: the `SaveProcessedVideoMetadata` upsert -/

/-- A `video_variants` row.  `id` and `createdAt` are generated at insert
and are not in the `ON CONFLICT DO UPDATE SET` list. -/
structure VariantRow where
  id : Nat
  videoID : String
  variantName : String
  bucket : String
  key : String
  contentType : String
  hlsPlaylistKey : PgText
  thumbnailKey : PgText
  width : PgInt4
  height : PgInt4
  bitrateKbps : PgInt4
  createdAt : Nat
  deriving Repr, DecidableEq

/-- Does `r` sit at the conflict key `(video_id, variant_name)` of `p`? -/
def rowKeyEq (r : VariantRow) (p : MetadataParams) : Bool :=
  (r.videoID == p.videoID) && (r.variantName == p.variantName)

/-- The `DO UPDATE SET` clause: replace the eight listed columns from
`EXCLUDED`, keeping `id`, the key pair, and `created_at`. -/
def conflictUpdate (r : VariantRow) (p : MetadataParams) : VariantRow :=
  { r with
    bucket := p.bucket
    key := p.key
    contentType := p.contentType
    hlsPlaylistKey := p.hlsPlaylistKey
    thumbnailKey := p.thumbnailKey
    width := p.width
    height := p.height
    bitrateKbps := p.bitrateKbps }

/-- A fresh row inserted by the `INSERT` branch. -/
def insertRow (newId now : Nat) (p : MetadataParams) : VariantRow :=
  { id := newId, videoID := p.videoID, variantName := p.variantName,
    bucket := p.bucket, key := p.key, contentType := p.contentType,
    hlsPlaylistKey := p.hlsPlaylistKey, thumbnailKey := p.thumbnailKey,
    width := p.width, height := p.height, bitrateKbps := p.bitrateKbps,
    createdAt := now }

/-- The `SaveProcessedVideoMetadata` query: insert, or on conflict with the
`(video_id, variant_name)` unique constraint update the eight columns. -/
def saveProcessedVideoMetadata (table : List VariantRow) (newId now : Nat)
    (p : MetadataParams) : List VariantRow :=
  if table.any (fun r => rowKeyEq r p) then
    table.map (fun r => if rowKeyEq r p then conflictUpdate r p else r)
  else
    table ++ [insertRow newId now p]

/-- Rows of the table at the conflict key of `p`. -/
def rowsAtKey (table : List VariantRow) (p : MetadataParams) : List VariantRow :=
  table.filter (fun r => rowKeyEq r p)

/-- Well-formedness enforced by the unique constraint: at most one row per
`(video_id, variant_name)` pair. -/
def TableWF (table : List VariantRow) : Prop :=
  ∀ p : MetadataParams, (rowsAtKey table p).length ≤ 1

/-- One generic upsert call: parameters plus generated id and timestamp. -/
structure UpsertCall where
  newId : Nat
  now : Nat
  params : MetadataParams
  deriving Repr, DecidableEq

/-- Replay a sequence of upsert calls against the table. -/
def runUpserts (table : List VariantRow) (calls : List UpsertCall) : List VariantRow :=
  calls.foldl (fun t c => saveProcessedVideoMetadata t c.newId c.now c.params) table

/-! ## Connection pool (`initiator.NewPool`) -/

/-- The pgxpool settings assigned by `NewPool` (durations in the units named
by the fields). -/
structure PoolConfig where
  maxConns : Nat
  minConns : Nat
  maxConnLifetimeMin : Nat
  maxConnIdleTimeMin : Nat
  healthCheckPeriodMin : Nat
  connectTimeoutSec : Nat
  deriving Repr, DecidableEq

/-- The pool configuration computed from the CPU count. -/
def poolConfigOf (numCPU : Nat) : PoolConfig :=
  { maxConns := max 10 (numCPU * 4), minConns := 2,
    maxConnLifetimeMin := 15, maxConnIdleTimeMin := 5,
    healthCheckPeriodMin := 1, connectTimeoutSec := 5 }

/-- Outcome of `NewPool`: the returned pool's configuration (if any),
whether `pool.Close()` was invoked, and the returned error message. -/
structure PoolResult where
  pool : Option PoolConfig
  closed : Bool
  errMsg : Option String
  deriving Repr, DecidableEq

/-- `NewPool` from the source: parse the DSN, build the config, create the
pool, then ping; a ping failure closes the pool and returns an error. -/
def newPool (numCPU : Nat) (parseOk createOk pingOk : Bool) : PoolResult :=
  if ¬ parseOk then { pool := none, closed := false, errMsg := some "failed to parse config" }
  else if ¬ createOk then { pool := none, closed := false, errMsg := some "failed to create pool" }
  else if ¬ pingOk then { pool := none, closed := true, errMsg := some "failed to ping database" }
  else { pool := some (poolConfigOf numCPU), closed := false, errMsg := none }

/-! ## Broker (Redis stream consumer group bootstrap and reads) -/

/-- The error string Redis returns when the consumer group exists. -/
def busygroupMsg : String := "BUSYGROUP Consumer Group name already exists"

/-- Broker-side state of one stream: whether it exists, how many entries
were ever appended (entries are identified by their append index, which is
monotone like Redis stream ids), and each group's read position. -/
structure BrokerState where
  streamExists : Bool
  entries : Nat
  groups : List (String × Nat)
  deriving Repr, DecidableEq

/-- Server semantics of `XGROUP CREATE ... $ MKSTREAM`: an existing group is
a BUSYGROUP error; otherwise the stream is created if absent and the group
starts at the current tail.  `transport` injects a non-BUSYGROUP failure. -/
def xgroupCreateMkStream (st : BrokerState) (group : String)
    (transport : Option String) : BrokerState × Option String :=
  match transport with
  | some e => (st, some e)
  | none =>
    if (st.groups.lookup group).isSome then (st, some busygroupMsg)
    else ({ streamExists := true, entries := st.entries,
            groups := (group, st.entries) :: st.groups }, none)

/-- The broker state after a successful `XGROUP CREATE ... $ MKSTREAM`:
stream present, entries kept, the new group positioned at the tail. -/
def bootstrappedState (st : BrokerState) (group : String) : BrokerState :=
  { streamExists := true, entries := st.entries, groups := (group, st.entries) :: st.groups }

/-- The group-bootstrap step at the top of `Consume`: a BUSYGROUP error is
ignored (the read loop still starts); any other error is returned as a
`models.Error`. -/
def consumeBootstrap (st : BrokerState) (group : String)
    (transport : Option String) : Except GoError BrokerState :=
  let step := xgroupCreateMkStream st group transport
  match step.2 with
  | none => Except.ok step.1
  | some e =>
    if e = busygroupMsg then Except.ok step.1
    else Except.error { code := 500, message := "internal server error",
                        description := "failed to create group" }

/-- Broker operations observable by a group after bootstrap: a producer
publish (`XADD`), or a group read (`XREADGROUP ... >` with a `Count`). -/
inductive BrokerOp where
  | publish
  | readNew (group : String) (count : Nat)
  deriving Repr, DecidableEq

/-- Advance `g`'s read position to `pos` in the group list. -/
def setGroupPos (groups : List (String × Nat)) (g : String) (pos : Nat) :
    List (String × Nat) :=
  groups.map (fun q => if q.1 = g then (q.1, pos) else q)

/-- One broker step, returning the new state and the entry indices the step
delivered, tagged with the receiving group. -/
def brokerStep (st : BrokerState) : BrokerOp → BrokerState × List (String × Nat)
  | BrokerOp.publish =>
    ({ st with streamExists := true, entries := st.entries + 1 }, [])
  | BrokerOp.readNew g count =>
    match st.groups.lookup g with
    | none => (st, [])
    | some pos =>
      let k := min count (st.entries - pos)
      ({ st with groups := setGroupPos st.groups g (pos + k) },
        (List.range k).map (fun i => (g, pos + i)))

/-- Run a list of broker operations, collecting every delivery. -/
def brokerRun (st : BrokerState) : List BrokerOp → BrokerState × List (String × Nat)
  | [] => (st, [])
  | op :: ops =>
    let step := brokerStep st op
    let rest := brokerRun step.1 ops
    (rest.1, step.2 ++ rest.2)

/-! ## Ingest producer (`videoProcessor.Upload`) and HTTP handler -/

/-- `UploadVideoRequest.Validate` (ozzo `validation.Required` on the title,
the description, and the file list). -/
def validateUploadRequest (title description : String) (numVideos : Nat) : Bool :=
  (!(title == "")) && (!(description == "")) && (!(numVideos == 0))

/-- Oracles for the per-file effects of the service `Upload` loop:
`fileHeader.Open`, `ListBuckets`, whether the user bucket already exists,
`MakeBucket`, `PutObject`, `CreateVideo`, and the broker `Stream` publish. -/
structure FileEnv where
  openOk : Bool
  listBucketsOk : Bool
  bucketExists : Bool
  createBucketOk : Bool
  putOk : Bool
  createVideoOk : Bool
  streamOk : Bool
  deriving Repr, DecidableEq

/-- Every step of one file's ingest succeeded (store, record, publish). -/
def fileIngestOk (f : FileEnv) : Bool :=
  f.openOk && f.listBucketsOk && (f.bucketExists || f.createBucketOk) &&
    f.putOk && f.createVideoOk && f.streamOk

/-- The body of the per-file loop of the service `Upload`: the first failing
step aborts the request with its `models.Error`. -/
def uploadFileStep (f : FileEnv) : Option GoError :=
  if ¬ f.openOk then
    some { code := 500, message := "internal server error", description := "failed to open file" }
  else if ¬ f.listBucketsOk then
    some { code := 500, message := "internal server error", description := "failed to fetch buckets" }
  else if ¬ f.bucketExists ∧ ¬ f.createBucketOk then
    some { code := 500, message := "internal server error", description := "failed to create bucket" }
  else if ¬ f.putOk then
    some { code := 500, message := "internal server error",
           description := "failed to upload file to storage" }
  else if ¬ f.createVideoOk then
    some { code := 500, message := "internal server error",
           description := "failed to save video metadata to database" }
  else if ¬ f.streamOk then
    some { code := 500, message := "internal server error",
           description := "failed to stream event to redis for video processing" }
  else none

/-- Iterate the upload loop over the submitted files: first error wins. -/
def uploadFilesLoop : List FileEnv → Option GoError
  | [] => none
  | f :: fs =>
    match uploadFileStep f with
    | some e => some e
    | none => uploadFilesLoop fs

/-- The service `Upload`: validate, then ingest each file in order; returns
`none` exactly on full success. -/
def uploadService (title description : String) (files : List FileEnv) : Option GoError :=
  if ¬ validateUploadRequest title description files.length then
    some { code := 400, message := "invalid input data", description := "" }
  else uploadFilesLoop files

/-- HTTP status and response body produced by the `Upload` handler. -/
structure HttpReply where
  status : Nat
  body : String
  deriving Repr, DecidableEq

/-- The `Upload` handler from `handlers/video.go`: missing `user_id` is 401,
a binding error is 400 with the binding message, a service error is answered
with a fixed 500 and a generic body (the service error is only logged), and
success is 200. -/
def uploadHandlerReply (uidOk : Bool) (bindErr : Option String)
    (serviceErr : Option GoError) : HttpReply :=
  if ¬ uidOk then { status := 401, body := "Unauthorized" }
  else
    match bindErr with
    | some e => { status := 400, body := e }
    | none =>
      match serviceErr with
      | some _ => { status := 500, body := "Failed to upload video" }
      | none => { status := 200, body := "Video uploaded successfully" }

/-! ## Derived predicates and concrete fixtures -/

/-- Does the message map hold key `k` with a Go string value?  The unchecked
assertions in `Consume` and `ProcessVideo` panic exactly when this fails. -/
def isStringField (values : FieldMap) (k : String) : Bool :=
  match lookupField values k with
  | some (GoValue.str _) => true
  | _ => false

/-- The eight columns the `ON CONFLICT DO UPDATE SET` clause writes, read
off a row against the upsert parameters. -/
def rowMatchesParams (r : VariantRow) (p : MetadataParams) : Prop :=
  r.bucket = p.bucket ∧ r.key = p.key ∧ r.contentType = p.contentType ∧
    r.hlsPlaylistKey = p.hlsPlaylistKey ∧ r.thumbnailKey = p.thumbnailKey ∧
    r.width = p.width ∧ r.height = p.height ∧ r.bitrateKbps = p.bitrateKbps

/-- Lower bound on a consumer group's read position. -/
def groupPosLB (st : BrokerState) (g : String) (n : Nat) : Prop :=
  ∀ p, st.groups.lookup g = some p → n ≤ p

/-- The `models.Error` built by `ProcessVideo` when `os.MkdirTemp` fails. -/
def workdirCreateError : GoError :=
  { code := 500, message := "internal server error",
    description := "failed to create working directory" }

/-- The `models.Error` built by `ProcessVideo` when the download fails. -/
def downloadError : GoError :=
  { code := 500, message := "download failed",
    description := "failed to download source video" }

/-- A variant environment in which every effectful step succeeds. -/
def allOkVariantEnv : VariantEnv :=
  { mkdirOk := true, transcodeOk := true, mkdirHlsOk := true, hlsOk := true,
    thumbOk := true, statThumbOk := true,
    hlsGlob := some ["index.m3u8", "segment_000.ts"], videoIdOk := true }

/-- A variant environment in which only the thumbnail step fails. -/
def thumbFailEnv : VariantEnv :=
  { allOkVariantEnv with thumbOk := false, statThumbOk := false }

/-- A variant environment in which only the transcode step fails. -/
def transcodeFailEnv : VariantEnv :=
  { allOkVariantEnv with transcodeOk := false }

def sampleVariant : Variant :=
  { name := "1080p", width := 1920, height := 1080, bitrate := "4000k" }

def sampleTask : ProcessingTask :=
  { variant := sampleVariant, workDir := "work", sourcePath := "work/source.mp4",
    destPref := "processed/job1", bucket := "user1", videoID := "vid1" }

/-- A variant descriptor whose bitrate string is not an integer after the
`k` suffix is trimmed. -/
def badBitrateVariant : Variant :=
  { name := "odd", width := 100, height := 100, bitrate := "fastk" }

def badBitrateTask : ProcessingTask :=
  { sampleTask with variant := badBitrateVariant }

/-- A job environment in which everything succeeds. -/
def okJobEnv : JobEnv :=
  { mkdirTempOk := true, downloadOk := true, jobUUID := "job1", workDir := "work",
    variantEnv := fun _ => allOkVariantEnv }

/-- A job environment in which only the source download fails. -/
def downloadFailJobEnv : JobEnv := { okJobEnv with downloadOk := false }

/-- A job environment in which only the `144p` transcode fails. -/
def transcodeFail144JobEnv : JobEnv :=
  { okJobEnv with
    variantEnv := fun nm => if nm = "144p" then transcodeFailEnv else allOkVariantEnv }

/-- A well-formed `JobEvent` field map. -/
def goodValues : FieldMap :=
  [("bucket", GoValue.str "user1"), ("key", GoValue.str "source.mp4"),
   ("video_id", GoValue.str "vid1")]

/-- A poison message: the `bucket` field is missing entirely. -/
def missingBucketValues : FieldMap :=
  [("key", GoValue.str "source.mp4"), ("video_id", GoValue.str "vid1")]

/-- Upsert parameters for the `(vid1, 1080p)` key, first run. -/
def paramsRun1 : MetadataParams :=
  { videoID := "vid1", variantName := "1080p", bucket := "user1",
    key := "processed/jobA/1080p/1080p.mp4", contentType := "video/mp4",
    hlsPlaylistKey := { string := "processed/jobA/1080p/index.m3u8", valid := true },
    thumbnailKey := { string := "processed/jobA/1080p/1080p-thumb.jpg", valid := true },
    width := { int32 := 1920, valid := true },
    height := { int32 := 1080, valid := true },
    bitrateKbps := { int32 := 4000, valid := true } }

/-- Upsert parameters for the same key, second run (fresh job uuid). -/
def paramsRun2 : MetadataParams :=
  { paramsRun1 with
    key := "processed/jobB/1080p/1080p.mp4"
    hlsPlaylistKey := { string := "processed/jobB/1080p/index.m3u8", valid := true }
    thumbnailKey := { string := "processed/jobB/1080p/1080p-thumb.jpg", valid := true } }

/-- A broker with two historical entries and no groups yet. -/
def brokerStart : BrokerState := { streamExists := true, entries := 2, groups := [] }

/-- The broker state right after `video_group` is created at the tail. -/
def brokerBootstrapped : BrokerState :=
  { streamExists := true, entries := 2, groups := [("video_group", 2)] }

/-- A publish followed by a group read, for the bootstrap witness. -/
def sampleOps : List BrokerOp :=
  [BrokerOp.publish, BrokerOp.readNew "video_group" 10]

/-- The `144p` descriptor, as listed in the variant table. -/
def variant144 : Variant := { name := "144p", width := 256, height := 144, bitrate := "100k" }

/-- A file whose every ingest step succeeds. -/
def okFileEnv : FileEnv :=
  { openOk := true, listBucketsOk := true, bucketExists := true, createBucketOk := true,
    putOk := true, createVideoOk := true, streamOk := true }

/-- A file whose object-store put fails. -/
def putFailFileEnv : FileEnv := { okFileEnv with putOk := false }


/-! ## Helper lemmas: the variant pipeline -/
lemma processVariant_success_metadata (env : VariantEnv) (task : ProcessingTask)
    (hm : env.mkdirOk = true) (ht : env.transcodeOk = true)
    (hmh : env.mkdirHlsOk = true) (hh : env.hlsOk = true)
    (hv : env.videoIdOk = true) :
    (processVariant env task).success = true ∧
    (processVariant env task).errorMsg = none ∧
    (processVariant env task).metadata =
      { videoID := task.videoID, variantName := task.variant.name,
        bucket := task.bucket,
        key := joinPath (joinPath task.destPref task.variant.name) (task.variant.name ++ ".mp4"),
        contentType := "video/mp4",
        hlsPlaylistKey :=
          { string := joinPath (joinPath task.destPref task.variant.name) "index.m3u8", valid := true },
        thumbnailKey :=
          { string := joinPath (joinPath task.destPref task.variant.name)
              (task.variant.name ++ "-thumb.jpg"), valid := true },
        width := { int32 := (task.variant.width : Int), valid := true },
        height := { int32 := (task.variant.height : Int), valid := true },
        bitrateKbps :=
          { int32 := (goParseInt32 (trimGoSuffix task.variant.bitrate "k")).1, valid := true } } := by
  refine ⟨?_, ?_, ?_⟩ <;> simp [processVariant, hm, ht, hmh, hh, hv]

lemma processVariant_failed (env : VariantEnv) (task : ProcessingTask)
    (h : env.mkdirOk = false ∨ env.transcodeOk = false ∨ env.mkdirHlsOk = false ∨
         env.hlsOk = false ∨ env.videoIdOk = false) :
    (processVariant env task).success = false := by
  by_cases hm : env.mkdirOk <;> by_cases ht : env.transcodeOk <;>
    by_cases hmh : env.mkdirHlsOk <;> by_cases hh : env.hlsOk <;>
    rcases h with h | h | h | h | h <;> simp_all [processVariant]

lemma processVariant_variantName (env : VariantEnv) (task : ProcessingTask) :
    (processVariant env task).variantName = task.variant.name := by
  by_cases hm : env.mkdirOk <;> by_cases ht : env.transcodeOk <;>
    by_cases hmh : env.mkdirHlsOk <;> by_cases hh : env.hlsOk <;>
    by_cases hv : env.videoIdOk <;> simp_all [processVariant]

lemma routeResult_of_failed (r : ProcessingResult) (h : r.success = false) :
    routeResult r = { queued := [], saved := none } := by
  simp [routeResult, h]

/-! ## Helper lemmas: consumer and job level -/
lemma typeAssert_of_not_string (values : FieldMap) (k : String)
    (h : isStringField values k = false) :
    typeAssertString (lookupField values k) = Except.error "panic: interface conversion" := by
  unfold isStringField at h
  cases hv : lookupField values k with
  | none => rfl
  | some v =>
    cases v with
    | str s => rw [hv] at h; simp at h
    | other => rfl

lemma typeAssert_total (x : Option GoValue) :
    (∃ s, typeAssertString x = Except.ok s) ∨
      typeAssertString x = Except.error "panic: interface conversion" := by
  cases x with
  | none => exact Or.inr rfl
  | some v => cases v with
    | str s => exact Or.inl ⟨s, rfl⟩
    | other => exact Or.inr rfl

lemma consumeMessage_ok (env : JobEnv) (values : FieldMap) (jr : JobResult) (acked : Bool)
    (h : consumeMessage env values = Except.ok (jr, acked)) :
    acked = true ∧ ProcessVideo env values = Except.ok jr := by
  unfold consumeMessage at h
  rcases typeAssert_total (lookupField values "bucket") with ⟨s, hs⟩ | hs <;> rw [hs] at h
  · rcases typeAssert_total (lookupField values "key") with ⟨t, hk⟩ | hk <;> rw [hk] at h
    · cases hp : ProcessVideo env values with
      | error e => rw [hp] at h; exact absurd h (by simp)
      | ok jr2 =>
        rw [hp] at h
        have h3 := h
        injection h3 with h3
        obtain ⟨h31, h32⟩ := Prod.mk.inj h3
        exact ⟨h32.symm, congrArg Except.ok h31⟩
    · exact absurd h (by simp)
  · exact absurd h (by simp)

lemma ProcessVideo_fields_eq (env : JobEnv) (values : FieldMap) (s t u : String)
    (hs : typeAssertString (lookupField values "bucket") = Except.ok s)
    (hk : typeAssertString (lookupField values "key") = Except.ok t)
    (hu : typeAssertString (lookupField values "video_id") = Except.ok u) :
    ProcessVideo env values =
      (if ¬ env.mkdirTempOk then
        Except.ok { err := some workdirCreateError, results := [], actions := [] }
      else if ¬ env.downloadOk then
        Except.ok { err := some downloadError, results := [], actions := [] }
      else Except.ok (runJobPipeline env s t u)) := by
  unfold ProcessVideo
  rw [hs, hk, hu]
  rfl

lemma ProcessVideo_ok_err (env : JobEnv) (values : FieldMap) (jr : JobResult)
    (h : ProcessVideo env values = Except.ok jr) :
    (env.mkdirTempOk = false → jr.err = some workdirCreateError) ∧
    (env.mkdirTempOk = true → env.downloadOk = false → jr.err = some downloadError) := by
  rcases typeAssert_total (lookupField values "bucket") with ⟨s, hs⟩ | hs
  case inr => unfold ProcessVideo at h; rw [hs] at h; exact absurd h (by simp)
  rcases typeAssert_total (lookupField values "key") with ⟨t, hk⟩ | hk
  case inr => unfold ProcessVideo at h; rw [hs, hk] at h; exact absurd h (by simp)
  rcases typeAssert_total (lookupField values "video_id") with ⟨u, hu⟩ | hu
  case inr => unfold ProcessVideo at h; rw [hs, hk, hu] at h; exact absurd h (by simp)
  rw [ProcessVideo_fields_eq env values s t u hs hk hu] at h
  constructor
  · intro hm
    rw [if_pos (by simp [hm])] at h
    injection h with h2
    rw [← h2]
  · intro hm hd
    rw [if_neg (by simp [hm]), if_pos (by simp [hd])] at h
    injection h with h2
    rw [← h2]

/-! ## Helper lemmas: the metadata upsert -/
lemma rowKeyEq_conflictUpdate (r : VariantRow) (p q : MetadataParams) :
    rowKeyEq (conflictUpdate r p) q = rowKeyEq r q := rfl

lemma filter_map_comm (f : VariantRow → VariantRow) (q : MetadataParams)
    (hf : ∀ r, rowKeyEq (f r) q = rowKeyEq r q) (t : List VariantRow) :
    (t.map f).filter (fun r => rowKeyEq r q) = (t.filter (fun r => rowKeyEq r q)).map f := by
  induction t with
  | nil => rfl
  | cons a t ih =>
    simp only [List.map_cons, List.filter_cons, hf]
    by_cases hc : rowKeyEq a q = true
    · simp [hc, ih]
    · simp [hc, ih]

lemma any_false_filter (t : List VariantRow) (p : MetadataParams)
    (h : t.any (fun r => rowKeyEq r p) = false) :
    rowsAtKey t p = [] := by
  induction t with
  | nil => rfl
  | cons a t ih =>
    unfold rowsAtKey
    rw [List.filter_cons]
    cases ha : rowKeyEq a p with
    | false =>
      simp only [ha, Bool.false_eq_true, if_false]
      exact ih (by simpa [List.any_cons, ha] using h)
    | true => exfalso; simp [List.any_cons, ha] at h

lemma TableWF_tail (a : VariantRow) (t : List VariantRow) (h : TableWF (a :: t)) :
    TableWF t := by
  intro q
  have h2 := h q
  unfold rowsAtKey at h2 ⊢
  rw [List.filter_cons] at h2
  cases ha : rowKeyEq a q with
  | false => rw [ha] at h2; simpa using h2
  | true =>
    rw [ha] at h2
    simp only [if_true, List.length_cons] at h2
    omega

lemma any_true_filter_len (t : List VariantRow) (p : MetadataParams)
    (hwf : TableWF t) (h : t.any (fun r => rowKeyEq r p) = true) :
    (rowsAtKey t p).length = 1 := by
  induction t with
  | nil => simp [List.any_nil] at h
  | cons a t ih =>
    unfold rowsAtKey
    rw [List.filter_cons]
    cases ha : rowKeyEq a p with
    | true =>
      have h1 := hwf p
      unfold rowsAtKey at h1
      rw [List.filter_cons, ha] at h1
      simp only [if_true, List.length_cons] at h1 ⊢
      omega
    | false =>
      simp only [ha, Bool.false_eq_true, if_false]
      exact ih (TableWF_tail a t hwf) (by simpa [List.any_cons, ha] using h)

lemma mem_rowsAtKey (r : VariantRow) (t : List VariantRow) (p : MetadataParams)
    (h : r ∈ rowsAtKey t p) : r ∈ t ∧ rowKeyEq r p = true := by
  unfold rowsAtKey at h
  have h2 := List.of_mem_filter h
  exact ⟨List.mem_of_mem_filter h, h2⟩

lemma conflictUpdate_matches (r : VariantRow) (p : MetadataParams) :
    rowMatchesParams (conflictUpdate r p) p := by
  refine ⟨rfl, rfl, rfl, rfl, rfl, rfl, rfl, rfl⟩

lemma insertRow_matches (i n : Nat) (p : MetadataParams) :
    rowMatchesParams (insertRow i n p) p := by
  refine ⟨rfl, rfl, rfl, rfl, rfl, rfl, rfl, rfl⟩

lemma rowKeyEq_congr (r : VariantRow) (p q : MetadataParams)
    (hv : p.videoID = q.videoID) (hn : p.variantName = q.variantName) :
    rowKeyEq r q = rowKeyEq r p := by
  simp [rowKeyEq, hv, hn]

lemma insertRow_key_true (i n : Nat) (p : MetadataParams) :
    rowKeyEq (insertRow i n p) p = true := by
  simp [rowKeyEq, insertRow]

lemma save_values (t : List VariantRow) (i n : Nat) (p : MetadataParams) (r : VariantRow)
    (h : r ∈ rowsAtKey (saveProcessedVideoMetadata t i n p) p) :
    rowMatchesParams r p := by
  unfold saveProcessedVideoMetadata at h
  by_cases hex : t.any (fun r => rowKeyEq r p) = true
  · rw [if_pos hex] at h
    unfold rowsAtKey at h
    rw [filter_map_comm _ p
      (fun r0 => by by_cases hk : rowKeyEq r0 p = true <;> simp [hk, rowKeyEq_conflictUpdate]) t] at h
    obtain ⟨r0, hr0, hr0e⟩ := List.mem_map.mp h
    have hk := List.of_mem_filter hr0
    rw [if_pos hk] at hr0e
    rw [← hr0e]
    exact conflictUpdate_matches r0 p
  · rw [if_neg hex] at h
    unfold rowsAtKey at h
    rw [List.filter_append] at h
    rcases List.mem_append.mp h with h2 | h2
    · have hnil := any_false_filter t p (by simpa using hex)
      unfold rowsAtKey at hnil
      rw [hnil] at h2
      exact absurd h2 (by simp)
    · have : r = insertRow i n p := by
        have := List.mem_of_mem_filter h2
        simpa using this
      rw [this]
      exact insertRow_matches i n p

lemma save_len_one (t : List VariantRow) (i n : Nat) (p : MetadataParams)
    (hwf : TableWF t) :
    (rowsAtKey (saveProcessedVideoMetadata t i n p) p).length = 1 := by
  unfold saveProcessedVideoMetadata
  by_cases hex : t.any (fun r => rowKeyEq r p) = true
  · rw [if_pos hex]
    unfold rowsAtKey
    rw [filter_map_comm _ p
      (fun r0 => by by_cases hk : rowKeyEq r0 p = true <;> simp [hk, rowKeyEq_conflictUpdate]) t]
    rw [List.length_map]
    exact any_true_filter_len t p hwf hex
  · rw [if_neg hex]
    unfold rowsAtKey
    rw [List.filter_append]
    have hnil := any_false_filter t p (by simpa using hex)
    unfold rowsAtKey at hnil
    rw [hnil]
    simp [insertRow_key_true]

lemma save_TableWF (t : List VariantRow) (i n : Nat) (p : MetadataParams)
    (hwf : TableWF t) :
    TableWF (saveProcessedVideoMetadata t i n p) := by
  intro q
  unfold saveProcessedVideoMetadata
  by_cases hex : t.any (fun r => rowKeyEq r p) = true
  · rw [if_pos hex]
    unfold rowsAtKey
    rw [filter_map_comm _ q
      (fun r0 => by by_cases hk : rowKeyEq r0 p = true <;> simp [hk, rowKeyEq_conflictUpdate]) t]
    rw [List.length_map]
    exact hwf q
  · rw [if_neg hex]
    unfold rowsAtKey
    rw [List.filter_append]
    cases hx : rowKeyEq (insertRow i n p) q with
    | false =>
      simp only [List.filter_cons, hx, Bool.false_eq_true, if_false, List.filter_nil,
        List.append_nil]
      exact hwf q
    | true =>
      have hkeys : p.videoID = q.videoID ∧ p.variantName = q.variantName := by
        have := hx
        simp [rowKeyEq, insertRow] at this
        exact this
      have hnil : rowsAtKey t q = [] := by
        have h2 : (fun r => rowKeyEq r q) = (fun r => rowKeyEq r p) := by
          funext r
          exact rowKeyEq_congr r p q hkeys.1 hkeys.2
        unfold rowsAtKey
        rw [h2]
        have hnil2 := any_false_filter t p (by simpa using hex)
        unfold rowsAtKey at hnil2
        exact hnil2
      unfold rowsAtKey at hnil
      rw [hnil]
      simp [hx]

lemma runUpserts_TableWF (t : List VariantRow) (calls : List UpsertCall)
    (hwf : TableWF t) : TableWF (runUpserts t calls) := by
  induction calls generalizing t with
  | nil => exact hwf
  | cons c rest ih =>
    exact ih _ (save_TableWF t c.newId c.now c.params hwf)

/-! ## Helper lemmas: the broker -/
lemma lookup_setGroupPos_other (groups : List (String × Nat)) (g h : String) (pos : Nat)
    (hne : h ≠ g) : (setGroupPos groups g pos).lookup h = groups.lookup h := by
  induction groups with
  | nil => rfl
  | cons a rest ih =>
    rcases a with ⟨k, v⟩
    simp only [setGroupPos, List.map_cons] at ih ⊢
    by_cases hk : k = g
    · have he : (if k = g then (k, pos) else (k, v)) = (k, pos) := if_pos hk
      rw [he, List.lookup_cons, List.lookup_cons]
      have hbeq : (h == k) = false := by
        subst hk
        simp [hne]
      rw [hbeq]
      exact ih
    · have he : (if k = g then (k, pos) else (k, v)) = (k, v) := if_neg hk
      rw [he, List.lookup_cons, List.lookup_cons]
      cases hbeq : h == k with
      | true => rfl
      | false => exact ih

lemma lookup_setGroupPos_self (groups : List (String × Nat)) (g : String) (pos p : Nat)
    (h : groups.lookup g = some p) :
    (setGroupPos groups g pos).lookup g = some pos := by
  induction groups with
  | nil => simp at h
  | cons a rest ih =>
    rcases a with ⟨k, v⟩
    simp only [setGroupPos, List.map_cons] at ih ⊢
    by_cases hk : k = g
    · have he : (if k = g then (k, pos) else (k, v)) = (k, pos) := if_pos hk
      rw [he, List.lookup_cons]
      have hbeq : (g == k) = true := by subst hk; simp
      rw [hbeq]
    · have he : (if k = g then (k, pos) else (k, v)) = (k, v) := if_neg hk
      rw [he, List.lookup_cons]
      have hbeq : (g == k) = false := by simp [Ne.symm hk]
      rw [hbeq]
      rw [List.lookup_cons, hbeq] at h
      exact ih h

lemma brokerStep_lb (st : BrokerState) (op : BrokerOp) (g : String) (n : Nat)
    (h : groupPosLB st g n) :
    groupPosLB (brokerStep st op).1 g n ∧
      ∀ q ∈ (brokerStep st op).2, q.1 = g → n ≤ q.2 := by
  cases op with
  | publish =>
    refine ⟨fun p hp => h p hp, ?_⟩
    intro q hq
    simp [brokerStep] at hq
  | readNew g2 count =>
    cases hl : st.groups.lookup g2 with
    | none =>
      refine ⟨fun p hp => h p (by simpa [brokerStep, hl] using hp), ?_⟩
      intro q hq
      simp [brokerStep, hl] at hq
    | some pos =>
      by_cases hg : g2 = g
      · subst hg
        have hn : n ≤ pos := h pos hl
        constructor
        · intro p hp
          simp only [brokerStep, hl] at hp
          rw [lookup_setGroupPos_self st.groups g2 _ pos hl] at hp
          injection hp with hp
          omega
        · intro q hq hq1
          simp only [brokerStep, hl] at hq
          obtain ⟨i, hi, hqe⟩ := List.mem_map.mp hq
          rw [← hqe]
          show n ≤ pos + i
          omega
      · constructor
        · intro p hp
          simp only [brokerStep, hl] at hp
          rw [lookup_setGroupPos_other st.groups g2 g _ (Ne.symm hg)] at hp
          exact h p hp
        · intro q hq hq1
          simp only [brokerStep, hl] at hq
          obtain ⟨i, hi, hqe⟩ := List.mem_map.mp hq
          rw [← hqe] at hq1
          exact absurd hq1 hg

lemma brokerRun_lb (g : String) (n : Nat) (ops : List BrokerOp) :
    ∀ st : BrokerState, groupPosLB st g n →
      groupPosLB (brokerRun st ops).1 g n ∧
        ∀ q ∈ (brokerRun st ops).2, q.1 = g → n ≤ q.2 := by
  induction ops with
  | nil =>
    intro st h
    exact ⟨h, by intro q hq; simp [brokerRun] at hq⟩
  | cons op rest ih =>
    intro st h
    have hstep := brokerStep_lb st op g n h
    have hrest := ih (brokerStep st op).1 hstep.1
    refine ⟨hrest.1, ?_⟩
    intro q hq hq1
    simp only [brokerRun, List.mem_append] at hq
    rcases hq with hq | hq
    · exact hstep.2 q hq hq1
    · exact hrest.2 q hq hq1

/-! ## Helper lemmas: the ingest producer -/
lemma uploadFileStep_none_iff (f : FileEnv) :
    uploadFileStep f = none ↔ fileIngestOk f = true := by
  rcases f with ⟨o, l, be, cb, p, cv, s⟩
  revert o l be cb p cv s
  decide

lemma uploadFilesLoop_none_iff (files : List FileEnv) :
    uploadFilesLoop files = none ↔ ∀ f ∈ files, fileIngestOk f = true := by
  induction files with
  | nil => simp [uploadFilesLoop]
  | cons f fs ih =>
    simp only [uploadFilesLoop]
    cases hf : uploadFileStep f with
    | some e =>
      constructor
      · intro h; exact absurd h (by simp)
      · intro h
        have h2 := (uploadFileStep_none_iff f).mpr (h f (by simp))
        rw [hf] at h2
        exact absurd h2 (by simp)
    | none =>
      have hok := (uploadFileStep_none_iff f).mp hf
      simp [ih, hok]


/-! ## Claims C1 and C2: the consumer read loop -/

/-- C1 counterexample: with the source download failing, `ProcessVideo`
returns the download `models.Error`, yet the message is still acknowledged
(`true` in the pair), so the broker will not redeliver it. -/
theorem consume_acks_despite_download_failure_cex :
    consumeMessage downloadFailJobEnv goodValues =
      Except.ok ({ err := some downloadError, results := [], actions := [] }, true) := rfl

/-- C1 (amended): `ProcessVideo` returns a `models.Error` when working-dir
creation or the download fails, but `Consume` discards that result and
acknowledges every message whose `bucket` and `key` fields type-assert, so
such jobs are not left pending for redelivery. -/
theorem consume_acks_unconditionally (env : JobEnv) (values : FieldMap)
    (jr : JobResult) (acked : Bool)
    (h : consumeMessage env values = Except.ok (jr, acked)) :
    acked = true ∧
    (env.mkdirTempOk = false → jr.err = some workdirCreateError) ∧
    (env.mkdirTempOk = true → env.downloadOk = false → jr.err = some downloadError) := by
  obtain ⟨ha, hp⟩ := consumeMessage_ok env values jr acked h
  obtain ⟨h1, h2⟩ := ProcessVideo_ok_err env values jr hp
  exact ⟨ha, h1, h2⟩

/-- C1 witness: the amended theorem applied at the download-failure
environment and a well-formed message. -/
theorem consume_acks_unconditionally_witness :
    consumeMessage downloadFailJobEnv goodValues =
      Except.ok ({ err := some downloadError, results := [], actions := [] }, true) ∧
    (true = true ∧
      (downloadFailJobEnv.mkdirTempOk = false →
        ({ err := some downloadError, results := [], actions := [] } : JobResult).err =
          some workdirCreateError) ∧
      (downloadFailJobEnv.mkdirTempOk = true → downloadFailJobEnv.downloadOk = false →
        ({ err := some downloadError, results := [], actions := [] } : JobResult).err =
          some downloadError)) :=
  ⟨rfl, consume_acks_unconditionally downloadFailJobEnv goodValues
    { err := some downloadError, results := [], actions := [] } true rfl⟩

/-- C2 counterexample: a message lacking the `bucket` field makes the
consumer panic (the unchecked `.(string)` assertion), instead of being
logged, acknowledged and skipped. -/
theorem poison_message_panics_cex :
    consumeMessage okJobEnv missingBucketValues =
      Except.error "panic: interface conversion" := rfl

/-- C2 (amended): a delivered message whose field map is missing any of
`bucket`, `key`, `video_id` or holds a non-string value crashes the consumer
with an interface-conversion panic; it is neither acknowledged nor skipped. -/
theorem malformed_message_panics (env : JobEnv) (values : FieldMap)
    (h : isStringField values "bucket" = false ∨ isStringField values "key" = false ∨
         isStringField values "video_id" = false) :
    consumeMessage env values = Except.error "panic: interface conversion" := by
  rcases h with h | h | h
  · simp only [consumeMessage]
    rw [typeAssert_of_not_string values "bucket" h]
  · simp only [consumeMessage]
    rcases typeAssert_total (lookupField values "bucket") with ⟨s, hs⟩ | hs
    · simp only [hs]
      rw [typeAssert_of_not_string values "key" h]
    · simp only [hs]
  · simp only [consumeMessage, ProcessVideo]
    rcases typeAssert_total (lookupField values "bucket") with ⟨s, hs⟩ | hs
    · simp only [hs]
      rcases typeAssert_total (lookupField values "key") with ⟨t, hk⟩ | hk
      · simp only [hk]
        rw [typeAssert_of_not_string values "video_id" h]
      · simp only [hk]
    · simp only [hs]

/-- C2 witness: the amended theorem applied to the message with no `bucket`
field. -/
theorem malformed_message_panics_witness :
    isStringField missingBucketValues "bucket" = false ∧
    consumeMessage okJobEnv missingBucketValues =
      Except.error "panic: interface conversion" :=
  ⟨rfl, malformed_message_panics okJobEnv missingBucketValues (Or.inl rfl)⟩

/-! ## Claims C3, C5, C7, C10: the variant pipeline -/

/-- C3 counterexample: with thumbnail extraction failing (and every other
step succeeding), the variant pipeline returns success but the metadata
carries a NON-null thumbnail key (`valid = true`), contradicting the claimed
null key. -/
theorem thumbnail_key_not_null_cex :
    (processVariant thumbFailEnv sampleTask).success = true ∧
    (processVariant thumbFailEnv sampleTask).metadata.thumbnailKey.valid = true := by
  constructor <;> rfl

/-- C3 (amended): when transcode and HLS generation succeed but thumbnail
extraction fails, the variant pipeline still returns success, and the
upserted metadata carries the non-null thumbnail key
`<prefix>/<name>-thumb.jpg` even though no thumbnail object was produced
(only the thumbnail upload is skipped). -/
theorem thumbnail_failure_nonfatal_nonnull_key (env : VariantEnv) (task : ProcessingTask)
    (hm : env.mkdirOk = true) (ht : env.transcodeOk = true)
    (hmh : env.mkdirHlsOk = true) (hh : env.hlsOk = true) (hv : env.videoIdOk = true)
    (_hthumb : env.thumbOk = false) (_hstat : env.statThumbOk = false) :
    (processVariant env task).success = true ∧
    (processVariant env task).metadata.thumbnailKey =
      { string := joinPath (joinPath task.destPref task.variant.name)
          (task.variant.name ++ "-thumb.jpg"), valid := true } := by
  obtain ⟨h1, _, h3⟩ := processVariant_success_metadata env task hm ht hmh hh hv
  exact ⟨h1, by rw [h3]⟩

/-- C3 witness: the amended theorem applied at the thumbnail-failure
environment on the sample task. -/
theorem thumbnail_failure_nonfatal_nonnull_key_witness :
    thumbFailEnv.thumbOk = false ∧
    ((processVariant thumbFailEnv sampleTask).success = true ∧
      (processVariant thumbFailEnv sampleTask).metadata.thumbnailKey =
        { string := joinPath (joinPath sampleTask.destPref sampleTask.variant.name)
            (sampleTask.variant.name ++ "-thumb.jpg"), valid := true }) :=
  ⟨rfl, thumbnail_failure_nonfatal_nonnull_key thumbFailEnv sampleTask
    rfl rfl rfl rfl rfl rfl rfl⟩

/-- C7: the build-time variant table is exactly the six descriptors of the
spec, and one pipeline per descriptor is spawned for every job, in variant
order, so all six are attempted. -/
theorem variant_table_and_fanout (env : JobEnv) (bucket sourceObj videoID : String) :
    variants =
      [ { name := "1080p", width := 1920, height := 1080, bitrate := "4000k" },
        { name := "720p", width := 1280, height := 720, bitrate := "2000k" },
        { name := "480p", width := 854, height := 480, bitrate := "1000k" },
        { name := "360p", width := 640, height := 360, bitrate := "500k" },
        { name := "240p", width := 426, height := 240, bitrate := "250k" },
        { name := "144p", width := 256, height := 144, bitrate := "100k" } ] ∧
    (runJobPipeline env bucket sourceObj videoID).results =
      variants.map (fun v =>
        processVariant (env.variantEnv v.name) (mkTask env bucket sourceObj videoID v)) ∧
    (runJobPipeline env bucket sourceObj videoID).results.map (fun r => r.variantName) =
      ["1080p", "720p", "480p", "360p", "240p", "144p"] := by
  refine ⟨rfl, rfl, ?_⟩
  simp [runJobPipeline, variants, mkTask, processVariant_variantName]

/-- C5: a variant whose directory creation, transcode, HLS generation or
video-id parse fails yields a failed result; the router queues no upload and
saves no metadata for it; all six pipelines are still spawned; every other
variant's result is unchanged by the failure; and the job message is still
acknowledged. -/
theorem variant_failure_isolated (env env2 : JobEnv) (bucket sourceObj videoID : String)
    (v : Variant) (_hv : v ∈ variants)
    (hfail : (env.variantEnv v.name).mkdirOk = false ∨
             (env.variantEnv v.name).transcodeOk = false ∨
             (env.variantEnv v.name).mkdirHlsOk = false ∨
             (env.variantEnv v.name).hlsOk = false ∨
             (env.variantEnv v.name).videoIdOk = false)
    (hj : env.jobUUID = env2.jobUUID) (hw : env.workDir = env2.workDir)
    (hagree : ∀ w, w ≠ v.name → env.variantEnv w = env2.variantEnv w) :
    (processVariant (env.variantEnv v.name) (mkTask env bucket sourceObj videoID v)).success =
      false ∧
    routeResult (processVariant (env.variantEnv v.name)
        (mkTask env bucket sourceObj videoID v)) =
      { queued := [], saved := none } ∧
    (runJobPipeline env bucket sourceObj videoID).results.length = variants.length ∧
    (∀ u ∈ variants, u.name ≠ v.name →
      processVariant (env.variantEnv u.name) (mkTask env bucket sourceObj videoID u) =
        processVariant (env2.variantEnv u.name) (mkTask env2 bucket sourceObj videoID u)) ∧
    (∀ values jr acked, consumeMessage env values = Except.ok (jr, acked) → acked = true) := by
  have hfailed := processVariant_failed (env.variantEnv v.name)
    (mkTask env bucket sourceObj videoID v) hfail
  refine ⟨hfailed, routeResult_of_failed _ hfailed, by simp [runJobPipeline], ?_, ?_⟩
  · intro u _ hne
    rw [hagree u.name hne]
    have hteq : mkTask env bucket sourceObj videoID u = mkTask env2 bucket sourceObj videoID u := by
      simp [mkTask, hj, hw]
    rw [hteq]
  · intro values jr acked h
    exact (consumeMessage_ok env values jr acked h).1

/-- C5 witness: the theorem applied with the `144p` transcode failing and an
otherwise identical all-success environment. -/
theorem variant_failure_isolated_witness :
    variant144 ∈ variants ∧
    ((processVariant (transcodeFail144JobEnv.variantEnv variant144.name)
        (mkTask transcodeFail144JobEnv "user1" "source.mp4" "vid1" variant144)).success =
      false ∧
    routeResult (processVariant (transcodeFail144JobEnv.variantEnv variant144.name)
        (mkTask transcodeFail144JobEnv "user1" "source.mp4" "vid1" variant144)) =
      { queued := [], saved := none } ∧
    (runJobPipeline transcodeFail144JobEnv "user1" "source.mp4" "vid1").results.length =
      variants.length ∧
    (∀ u ∈ variants, u.name ≠ variant144.name →
      processVariant (transcodeFail144JobEnv.variantEnv u.name)
          (mkTask transcodeFail144JobEnv "user1" "source.mp4" "vid1" u) =
        processVariant (okJobEnv.variantEnv u.name)
          (mkTask okJobEnv "user1" "source.mp4" "vid1" u)) ∧
    (∀ values jr acked,
      consumeMessage transcodeFail144JobEnv values = Except.ok (jr, acked) → acked = true)) :=
  ⟨by decide,
    variant_failure_isolated transcodeFail144JobEnv okJobEnv "user1" "source.mp4" "vid1"
      variant144 (by decide) (Or.inr (Or.inl rfl)) rfl rfl
      (by
        intro w hw2
        have hw3 : w ≠ "144p" := by simpa [variant144] using hw2
        simp [transcodeFail144JobEnv, okJobEnv, hw3])⟩

/-- C10: the stored bitrate equals the integer parse of the descriptor's
bitrate string with a trailing `k` trimmed (4000, 2000, 1000, 500, 250, 100
for the built-in table); the parse error is discarded, so a non-integer
bitrate string stores 0 and the variant still succeeds. -/
theorem bitrate_trim_parse_discard (env : VariantEnv) (task : ProcessingTask)
    (hm : env.mkdirOk = true) (ht : env.transcodeOk = true)
    (hmh : env.mkdirHlsOk = true) (hh : env.hlsOk = true) (hv : env.videoIdOk = true) :
    (processVariant env task).metadata.bitrateKbps =
      { int32 := (goParseInt32 (trimGoSuffix task.variant.bitrate "k")).1, valid := true } ∧
    variants.map (fun v => (goParseInt32 (trimGoSuffix v.bitrate "k")).1) =
      [4000, 2000, 1000, 500, 250, 100] ∧
    (goParseInt32 (trimGoSuffix task.variant.bitrate "k") = (0, false) →
      (processVariant env task).metadata.bitrateKbps.int32 = 0 ∧
      (processVariant env task).success = true) := by
  obtain ⟨h1, _, h3⟩ := processVariant_success_metadata env task hm ht hmh hh hv
  refine ⟨by rw [h3], by decide, fun hp => ⟨by rw [h3]; simp [hp], h1⟩⟩

/-- C10 witness: the theorem applied to a descriptor whose bitrate string
(`fastk`) is not an integer after trimming; the stored bitrate is 0 and the
variant still succeeds. -/
theorem bitrate_trim_parse_discard_witness :
    allOkVariantEnv.mkdirOk = true ∧
    ((processVariant allOkVariantEnv badBitrateTask).metadata.bitrateKbps =
      { int32 := (goParseInt32 (trimGoSuffix badBitrateTask.variant.bitrate "k")).1,
        valid := true } ∧
    variants.map (fun v => (goParseInt32 (trimGoSuffix v.bitrate "k")).1) =
      [4000, 2000, 1000, 500, 250, 100] ∧
    (goParseInt32 (trimGoSuffix badBitrateTask.variant.bitrate "k") = (0, false) →
      (processVariant allOkVariantEnv badBitrateTask).metadata.bitrateKbps.int32 = 0 ∧
      (processVariant allOkVariantEnv badBitrateTask).success = true)) :=
  ⟨rfl, bitrate_trim_parse_discard allOkVariantEnv badBitrateTask rfl rfl rfl rfl rfl⟩

/-! ## Claim C4: upsert idempotence -/

/-- C4: after any sequence of upserts followed by a final call `c`, the
table still has at most one row per `(video_id, variant_name)` pair, exactly
one row at `c`'s pair, and that row's eight replaceable columns carry `c`'s
values, so replaying a job any number of times leaves one row per pair
reflecting the last run. -/
theorem upsert_idempotent_last_write_wins (t : List VariantRow) (calls : List UpsertCall)
    (c : UpsertCall) (hwf : TableWF t) :
    TableWF (saveProcessedVideoMetadata (runUpserts t calls) c.newId c.now c.params) ∧
    (rowsAtKey (saveProcessedVideoMetadata (runUpserts t calls) c.newId c.now c.params)
        c.params).length = 1 ∧
    ∀ r ∈ rowsAtKey (saveProcessedVideoMetadata (runUpserts t calls) c.newId c.now c.params)
        c.params, rowMatchesParams r c.params := by
  have hwf2 := runUpserts_TableWF t calls hwf
  exact ⟨save_TableWF _ c.newId c.now c.params hwf2,
    save_len_one _ c.newId c.now c.params hwf2,
    fun r hr => save_values _ c.newId c.now c.params r hr⟩

/-- C4 witness: two runs on the empty table at the same pair; the theorem
applies, and the final table is concretely the first row with its columns
replaced by the second run's values (id and created_at kept). -/
theorem upsert_idempotent_last_write_wins_witness :
    (TableWF (saveProcessedVideoMetadata (runUpserts [] [⟨1, 10, paramsRun1⟩]) 2 20
        paramsRun2) ∧
      (rowsAtKey (saveProcessedVideoMetadata (runUpserts [] [⟨1, 10, paramsRun1⟩]) 2 20
          paramsRun2) paramsRun2).length = 1 ∧
      ∀ r ∈ rowsAtKey (saveProcessedVideoMetadata (runUpserts [] [⟨1, 10, paramsRun1⟩]) 2 20
          paramsRun2) paramsRun2, rowMatchesParams r paramsRun2) ∧
    runUpserts [] [⟨1, 10, paramsRun1⟩, ⟨2, 20, paramsRun2⟩] =
      [conflictUpdate (insertRow 1 10 paramsRun1) paramsRun2] :=
  ⟨upsert_idempotent_last_write_wins [] [⟨1, 10, paramsRun1⟩] ⟨2, 20, paramsRun2⟩
      (fun _ => Nat.zero_le 1),
    rfl⟩

/-! ## Claim C6: the ingest handler -/

/-- C6 counterexample: a validation failure carries machine code 400, yet
the handler replies with the fixed generic 500 body, not the machine code. -/
theorem upload_handler_generic_500_cex :
    uploadService "" "d" [okFileEnv] =
      some { code := 400, message := "invalid input data", description := "" } ∧
    uploadHandlerReply true none (uploadService "" "d" [okFileEnv]) =
      { status := 500, body := "Failed to upload video" } := by
  constructor <;> rfl

/-- C6 (amended): the handler replies 200 exactly when the service ingested
every file (validation passed and each file was stored, recorded and
published); on any service error it replies with a fixed 500 and the generic
body `Failed to upload video`, discarding the underlying machine code. -/
theorem upload_handler_200_iff_ingest_ok (title description : String)
    (files : List FileEnv) :
    (uploadHandlerReply true none (uploadService title description files) =
        { status := 200, body := "Video uploaded successfully" } ↔
      (validateUploadRequest title description files.length = true ∧
        ∀ f ∈ files, fileIngestOk f = true)) ∧
    (∀ e, uploadService title description files = some e →
      uploadHandlerReply true none (uploadService title description files) =
        { status := 500, body := "Failed to upload video" }) := by
  constructor
  · constructor
    · intro h
      cases hs : uploadService title description files with
      | some e2 =>
        rw [hs] at h
        simp [uploadHandlerReply] at h
      | none =>
        unfold uploadService at hs
        by_cases hval : validateUploadRequest title description files.length = true
        · rw [if_neg (by simp [hval])] at hs
          exact ⟨hval, (uploadFilesLoop_none_iff files).mp hs⟩
        · rw [if_pos (by simpa using hval)] at hs
          exact absurd hs (by simp)
    · rintro ⟨hval, hall⟩
      have hnone : uploadService title description files = none := by
        unfold uploadService
        rw [if_neg (by simp [hval])]
        exact (uploadFilesLoop_none_iff files).mpr hall
      rw [hnone]
      rfl
  · intro e he
    rw [he]
    rfl

/-- C6 witness: a valid single-file request yields 200; the empty-title
request yields the fixed 500 reply. -/
theorem upload_handler_200_iff_ingest_ok_witness :
    uploadHandlerReply true none (uploadService "t" "d" [okFileEnv]) =
      { status := 200, body := "Video uploaded successfully" } ∧
    uploadHandlerReply true none (uploadService "" "d" [okFileEnv]) =
      { status := 500, body := "Failed to upload video" } :=
  ⟨(upload_handler_200_iff_ingest_ok "t" "d" [okFileEnv]).1.mpr
      ⟨rfl, by
        intro f hf
        rw [List.mem_singleton] at hf
        rw [hf]
        rfl⟩,
    (upload_handler_200_iff_ingest_ok "" "d" [okFileEnv]).2
      { code := 400, message := "invalid input data", description := "" } rfl⟩

/-! ## Claim C8: the connection pool -/

/-- C8: the pool settings are MaxConns = max(10, 4·cpu), MinConns = 2,
lifetime 15 min, idle 5 min, health-check 1 min, connect timeout 5 s; a ping
failure closes the pool and returns an error, and a pool is returned only
when the ping succeeded. -/
theorem pool_config_and_ping_gate (numCPU : Nat) (parseOk createOk pingOk : Bool) :
    poolConfigOf numCPU =
      { maxConns := max 10 (numCPU * 4), minConns := 2, maxConnLifetimeMin := 15,
        maxConnIdleTimeMin := 5, healthCheckPeriodMin := 1, connectTimeoutSec := 5 } ∧
    newPool numCPU true true false =
      { pool := none, closed := true, errMsg := some "failed to ping database" } ∧
    (∀ cfg, (newPool numCPU parseOk createOk pingOk).pool = some cfg →
      pingOk = true ∧ cfg = poolConfigOf numCPU) := by
  refine ⟨rfl, rfl, ?_⟩
  intro cfg h
  cases parseOk <;> cases createOk <;> cases pingOk <;> simp_all [newPool]

/-- C8 witness: the theorem at 8 CPUs with a failing ping, plus the pool
actually returned on a successful ping. -/
theorem pool_config_and_ping_gate_witness :
    newPool 8 true true false =
      { pool := none, closed := true, errMsg := some "failed to ping database" } ∧
    (true = true ∧ poolConfigOf 8 = poolConfigOf 8) :=
  ⟨(pool_config_and_ping_gate 8 true true false).2.1,
    (pool_config_and_ping_gate 8 true true true).2.2 (poolConfigOf 8) rfl⟩

/-! ## Claim C9: consumer-group bootstrap -/

/-- C9: `XGROUP CREATE ... $ MKSTREAM` creates the stream if absent and the
group at the current tail; a BUSYGROUP reply is swallowed and the read loop
still starts; any other error is returned as a `models.Error`; and no entry
appended before group creation is ever delivered to the group. -/
theorem group_bootstrap_tail_semantics (st : BrokerState) (group e : String)
    (ops : List BrokerOp) :
    (st.groups.lookup group = none →
      consumeBootstrap st group none = Except.ok (bootstrappedState st group)) ∧
    ((st.groups.lookup group).isSome = true →
      consumeBootstrap st group none = Except.ok st) ∧
    (e ≠ busygroupMsg →
      consumeBootstrap st group (some e) =
        Except.error { code := 500, message := "internal server error",
                       description := "failed to create group" }) ∧
    (∀ q ∈ (brokerRun (bootstrappedState st group) ops).2,
      q.1 = group → st.entries ≤ q.2) := by
  refine ⟨?_, ?_, ?_, ?_⟩
  · intro h
    simp [consumeBootstrap, xgroupCreateMkStream, bootstrappedState, h]
  · intro h
    simp [consumeBootstrap, xgroupCreateMkStream, h]
  · intro h
    simp [consumeBootstrap, xgroupCreateMkStream, h]
  · have hlb : groupPosLB (bootstrappedState st group) group st.entries := by
      intro p hp
      rw [show (bootstrappedState st group).groups = (group, st.entries) :: st.groups from rfl,
        List.lookup_cons_self] at hp
      injection hp with hp
      omega
    exact (brokerRun_lb group st.entries ops _ hlb).2

/-- C9 witness: the theorem at a two-entry stream: bootstrap creates the
group at the tail, BUSYGROUP on re-bootstrap is not an error, other errors
surface, and a publish-then-read delivers only post-creation entries. -/
theorem group_bootstrap_tail_semantics_witness :
    consumeBootstrap brokerStart "video_group" none = Except.ok brokerBootstrapped ∧
    consumeBootstrap brokerBootstrapped "video_group" none = Except.ok brokerBootstrapped ∧
    consumeBootstrap brokerStart "video_group" (some "ERR") =
      Except.error { code := 500, message := "internal server error",
                     description := "failed to create group" } ∧
    (∀ q ∈ (brokerRun brokerBootstrapped sampleOps).2,
      q.1 = "video_group" → brokerStart.entries ≤ q.2) :=
  ⟨(group_bootstrap_tail_semantics brokerStart "video_group" "ERR" sampleOps).1 rfl,
    (group_bootstrap_tail_semantics brokerBootstrapped "video_group" "ERR" sampleOps).2.1 rfl,
    (group_bootstrap_tail_semantics brokerStart "video_group" "ERR" sampleOps).2.2.1
      (by decide),
    (group_bootstrap_tail_semantics brokerStart "video_group" "ERR" sampleOps).2.2.2⟩

end VideoProc
